import Mathlib

/-!
A shallow embedding of the tourer-admin-dashboard client: the shared
zustand store (`src/store/adminStore.ts`, given as `unnamed/part_000`;
`part_001` is an earlier copy of the same store without the review
operations and behaves identically on the operations it has) and the
page components that issue their own HTTP requests (most importantly
`src/app/bookings/page.tsx`).

Modelling conventions:
* every HTTP interaction is resolved by an `Env` value giving, per
  endpoint, the response the backend would produce at that moment;
* an axios request either yields a parsed body or rejects with a thrown
  JavaScript value, modelled as `Except Failure body` where
  `Failure := Option String` is `some msg` for an `Error` with that
  `message` and `none` for a non-`Error` throw;
* a `fetch`-based request additionally exposes the HTTP status code
  when `response.ok` is false (`FetchOutcome`);
* JavaScript truthiness of a nullable string (`truthy`) and template
  interpolation of a possibly-null value (`jsTmpl`, which renders
  `null` as the text "null") are modelled explicitly;
* each operation returns the successor state, the list of requests it
  issued (in order), and `Except String α` for its returned value or
  the message of the exception it lets escape to its caller.
-/

namespace AdminDash

/-- A JavaScript thrown value: `some msg` when it is an `Error` whose
`message` is `msg`, `none` for a non-`Error` throw. -/
abbrev Failure := Option String

/-- `instanceof Error ? error.message : default`. -/
def messageOr (f : Failure) (dflt : String) : String :=
  match f with
  | some msg => msg
  | none => dflt

/-- JS truthiness of a `string | null` value: `null`, `undefined` and
the empty string are falsy, every other string is truthy. -/
def truthy : Option String → Bool
  | none => false
  | some s => !(s == "")

/-- Template interpolation of a possibly-null string: JS renders
`null` as the text "null" inside a template literal. -/
def jsTmpl : Option String → String
  | none => "null"
  | some s => s

/-- `interface HealthData` of the store. -/
structure HealthData where
  status : String
  version : String
  timestamp : String
deriving DecidableEq

/-- `interface User` of the store. -/
structure User where
  id : String
  email : String
  firstName : Option String
  lastName : Option String
  role : String
deriving DecidableEq

/-- `interface AuthResponse` of the store. -/
structure AuthResponse where
  access_token : String
  refresh_token : String
  user : User
deriving DecidableEq

/-- `interface TourPackage` of the store (`part_000`). -/
structure TourPackage where
  id : String
  title : String
  description : String
  locationName : String
  price : Int
  duration : Int
  category : String
  difficulty : String
  rating : Option Int
  coverImage : Option String
  createdAt : String
  updatedAt : String
deriving DecidableEq

/-- The `user` sub-object of `interface Review`. -/
structure ReviewUser where
  id : String
  firstName : String
  lastName : String
  email : String
deriving DecidableEq

/-- The `package` sub-object of `interface Review`. -/
structure ReviewPackage where
  id : String
  title : String
deriving DecidableEq

/-- `interface Review` of the store. -/
structure Review where
  id : String
  rating : Nat
  comment : Option String
  images : Option (List String)
  isVerified : Bool
  createdAt : String
  updatedAt : String
  user : ReviewUser
  package : ReviewPackage
deriving DecidableEq

/-- The `pagination` object of `interface ReviewsResponse`. -/
structure Pagination where
  page : Nat
  limit : Nat
  total : Nat
  pages : Nat
deriving DecidableEq

/-- `interface ReviewsResponse` of the store. -/
structure ReviewsResponse where
  data : List Review
  pagination : Pagination
deriving DecidableEq

/-- The body of a `GET /packages` response: the code reads
`response.data.data || response.data`, so the body either wraps the
list in a `data` field or is the list itself.  In JS every array is
truthy (including `[]`), so a present `data` field always wins. -/
structure PackagesBody where
  dataField : Option (List TourPackage)
  raw : List TourPackage
deriving DecidableEq

/-- `response.data.data || response.data` for a packages list body. -/
def pickPackages (b : PackagesBody) : List TourPackage :=
  match b.dataField with
  | some l => l
  | none => b.raw

/-- The body of a `GET /packages/:id` response, read the same way
(`response.data.data || response.data`); objects are always truthy. -/
structure PkgBody where
  dataField : Option TourPackage
  raw : TourPackage
deriving DecidableEq

/-- `response.data.data || response.data` for a single-package body. -/
def pickPackage (b : PkgBody) : TourPackage :=
  match b.dataField with
  | some p => p
  | none => b.raw

/-- The state fields of `AdminState`, with their initial values given
in the store constructor. -/
structure AdminState where
  healthData : Option HealthData
  loading : Bool
  error : Option String
  user : Option User
  accessToken : Option String
  refreshToken : Option String
  isLoading : Bool
  authError : Option String
  packages : List TourPackage
  packagesLoading : Bool
  packagesError : Option String
  reviews : List Review
  reviewsLoading : Bool
  reviewsError : Option String
  reviewsPagination : Option Pagination
deriving DecidableEq

/-- The initial state of `useAdminStore`. -/
def initialState : AdminState where
  healthData := none
  loading := false
  error := none
  user := none
  accessToken := none
  refreshToken := none
  isLoading := false
  authError := none
  packages := []
  packagesLoading := false
  packagesError := none
  reviews := []
  reviewsLoading := false
  reviewsError := none
  reviewsPagination := none

/-- HTTP method of an issued request. -/
inductive Method where
  | get
  | post
  | patch
  | delete
deriving DecidableEq

/-- A request as issued by the client: method, full URL, and the
explicitly set headers, in source order. -/
structure Request where
  method : Method
  url : String
  headers : List (String × String)
deriving DecidableEq

/-- Outcome of a `fetch`-based request: a parsed body when
`response.ok`, the status code when the response is not ok, or a
rejection carrying the thrown value. -/
inductive FetchOutcome (α : Type) where
  | ok (body : α)
  | httpError (status : Nat)
  | reject (f : Option String)
deriving DecidableEq

/-- `interface Booking` of `src/app/bookings/page.tsx`: the status is
the string-literal union `'PENDING' | 'CONFIRMED' | 'COMPLETED' |
'CANCELLED'`. -/
inductive BookingStatus where
  | PENDING
  | CONFIRMED
  | COMPLETED
  | CANCELLED
deriving DecidableEq

/-- The `user` sub-object of `interface Booking`. -/
structure BookingUser where
  email : String
  firstName : String
  lastName : String
deriving DecidableEq

/-- The `package` sub-object of `interface Booking`. -/
structure BookingPackage where
  title : String
  locationName : String
  pricePerPerson : Int
deriving DecidableEq

/-- `interface Booking` of the bookings page. -/
structure Booking where
  id : String
  startDate : String
  endDate : Option String
  guests : Nat
  totalPrice : Int
  status : BookingStatus
  contactName : String
  contactEmail : String
  contactPhone : String
  specialRequests : Option String
  createdAt : String
  updatedAt : String
  user : BookingUser
  package : BookingPackage
deriving DecidableEq

/-- A carousel item as consumed by the carousel pages
(`data.data` of `GET /carousel/:id`). -/
structure CarouselItem where
  id : String
  title : String
  description : Option String
  imageUrl : String
  actionType : String
  actionValue : String
  isActive : Bool
  sortOrder : Nat
deriving DecidableEq

/-- The responses the backend produces for each endpoint the client
talks to, at the moment the modelled operation runs.  The reviews list
endpoint is keyed by the query parameters the client sends. -/
structure Env where
  health : Except Failure HealthData
  loginResp : Except Failure AuthResponse
  refreshResp : Except Failure String
  packagesResp : Except Failure PackagesBody
  packageByIdResp : String → Except Failure PkgBody
  createResp : Except Failure Unit
  updateResp : Except Failure Unit
  deleteResp : Except Failure Unit
  reviewsResp : Nat → Nat → Option Bool → Except Failure ReviewsResponse
  packageReviewsResp : String → Nat → Nat → Except Failure ReviewsResponse
  approveResp : Except Failure Unit
  deleteReviewResp : Except Failure Unit
  bookingsResp : FetchOutcome (List Booking)
  bookingPatchResp : FetchOutcome Unit
  bookingDeleteResp : FetchOutcome Unit
  carouselListResp : FetchOutcome (Option (List CarouselItem))
  carouselItemResp : FetchOutcome (Option CarouselItem)
  carouselDeleteResp : FetchOutcome Unit
  carouselPatchResp : FetchOutcome Unit
  uploadResp : FetchOutcome String

/-- Result of running one store operation: the successor state, the
requests issued, and the operation's outcome as seen by its caller
(`Except.error msg` models an exception with message `msg` escaping). -/
structure OpResult (α : Type) where
  state : AdminState
  reqs : List Request
  result : Except String α

/-- `API_BASE_URL` of the store: `process.env.NEXT_PUBLIC_API_BASE_URL
|| 'http://localhost:3000'`, modelled with the env variable unset. -/
def API_BASE_URL : String := "http://localhost:3000"

/-- The bookings page computes its own base URL with fallback
`http://localhost:3006`. -/
def BOOKINGS_BASE_URL : String := "http://localhost:3006"

/-- The carousel and upload call sites use fallback
`http://localhost:3002`. -/
def PAGES_BASE_URL : String := "http://localhost:3002"

/-- The `Authorization: Bearer ${accessToken}` header the store
wrappers attach unconditionally (interpolating `null` when unset). -/
def bearerHeader (st : AdminState) : String × String :=
  ("Authorization", "Bearer " ++ jsTmpl st.accessToken)

/-- `fetchHealthStatus`: sets `loading`/clears `error`, attaches the
bearer header only when the token is truthy, then records the body or
the error message; it never lets an exception escape. -/
def fetchHealthStatus (env : Env) (st : AdminState) : OpResult Unit :=
  let st1 := { st with loading := true, error := none }
  let headers :=
    if truthy st1.accessToken then
      [("Authorization", "Bearer " ++ jsTmpl st1.accessToken)]
    else []
  let req : Request := ⟨Method.get, API_BASE_URL ++ "/health", headers⟩
  match env.health with
  | Except.ok hd =>
      ⟨{ st1 with healthData := some hd, loading := false }, [req], Except.ok ()⟩
  | Except.error f =>
      ⟨{ st1 with
          error := some (messageOr f "Failed to fetch health status")
          loading := false }, [req], Except.ok ()⟩

/-- `login`: posts the credentials, rejects non-ADMIN users with
`Access denied. Admin privileges required.` (recorded in `authError`
and rethrown), commits the tokens and user on success, and rethrows
request failures as their message (default `Login failed`). -/
def login (env : Env) (_email _password : String) (st : AdminState) :
    OpResult Unit :=
  let st1 := { st with isLoading := true, authError := none }
  let req : Request := ⟨Method.post, API_BASE_URL ++ "/auth/login", []⟩
  match env.loginResp with
  | Except.ok r =>
      if r.user.role ≠ "ADMIN" then
        let m := "Access denied. Admin privileges required."
        ⟨{ st1 with
            authError := some m
            isLoading := false }, [req], Except.error m⟩
      else
        ⟨{ st1 with
            user := some r.user
            accessToken := some r.access_token
            refreshToken := some r.refresh_token
            isLoading := false
            authError := none }, [req], Except.ok ()⟩
  | Except.error f =>
      let m := messageOr f "Login failed"
      ⟨{ st1 with
          authError := some m
          isLoading := false }, [req], Except.error m⟩

/-- `logout`: clears the auth fields and nothing else. -/
def logout (st : AdminState) : AdminState :=
  { st with
      user := none
      accessToken := none
      refreshToken := none
      authError := none }

/-- `refreshAccessToken`: throws when the stored refresh token is
falsy, otherwise posts to `/auth/refresh` with `Bearer refreshToken`;
on success it sets only `accessToken`, on failure it logs out and
throws `Session expired. Please login again.`. -/
def refreshAccessToken (env : Env) (st : AdminState) : OpResult String :=
  if ¬ truthy st.refreshToken then
    ⟨st, [], Except.error "No refresh token available"⟩
  else
    let req : Request := ⟨Method.post, API_BASE_URL ++ "/auth/refresh",
      [("Authorization", "Bearer " ++ jsTmpl st.refreshToken)]⟩
    match env.refreshResp with
    | Except.ok tok =>
        ⟨{ st with accessToken := some tok }, [req], Except.ok tok⟩
    | Except.error _ =>
        ⟨logout st, [req], Except.error "Session expired. Please login again."⟩

/-- `checkAuthStatus`: `!!(user && accessToken && user.role ===
'ADMIN')`; a non-null object is truthy, a string is truthy iff
non-empty. -/
def checkAuthStatus (st : AdminState) : Bool :=
  match st.user with
  | none => false
  | some u => truthy st.accessToken && u.role == "ADMIN"

/-- `fetchPackages`: mirrors `response.data.data || response.data`
into `packages` on success; on failure records the fixed message
`Failed to fetch packages`; it never lets an exception escape. -/
def fetchPackages (env : Env) (st : AdminState) : OpResult Unit :=
  let st1 := { st with packagesLoading := true, packagesError := none }
  let req : Request := ⟨Method.get, API_BASE_URL ++ "/packages",
    [bearerHeader st1]⟩
  match env.packagesResp with
  | Except.ok body =>
      ⟨{ st1 with
          packages := pickPackages body
          packagesLoading := false }, [req], Except.ok ()⟩
  | Except.error _ =>
      ⟨{ st1 with
          packagesError := some "Failed to fetch packages"
          packagesLoading := false }, [req], Except.ok ()⟩

/-- `fetchPackageById`: returns the package on success and `null` on
any failure; it changes no state and never lets an exception escape. -/
def fetchPackageById (env : Env) (id : String) (st : AdminState) :
    OpResult (Option TourPackage) :=
  let req : Request := ⟨Method.get, API_BASE_URL ++ "/packages/" ++ id,
    [bearerHeader st]⟩
  match env.packageByIdResp id with
  | Except.ok body => ⟨st, [req], Except.ok (some (pickPackage body))⟩
  | Except.error _ => ⟨st, [req], Except.ok none⟩

/-- `createPackage`: posts the new package, then awaits
`fetchPackages()` (which cannot throw); on failure throws the fixed
message `Failed to create package`. -/
def createPackage (env : Env) (st : AdminState) : OpResult Unit :=
  let req : Request := ⟨Method.post, API_BASE_URL ++ "/packages",
    [bearerHeader st, ("Content-Type", "application/json")]⟩
  match env.createResp with
  | Except.ok _ =>
      let r := fetchPackages env st
      ⟨r.state, req :: r.reqs, Except.ok ()⟩
  | Except.error _ =>
      ⟨st, [req], Except.error "Failed to create package"⟩

/-- `updatePackage`: patches the package, then awaits
`fetchPackages()`; on failure throws `Failed to update package`. -/
def updatePackage (env : Env) (id : String) (st : AdminState) : OpResult Unit :=
  let req : Request := ⟨Method.patch, API_BASE_URL ++ "/packages/" ++ id,
    [bearerHeader st, ("Content-Type", "application/json")]⟩
  match env.updateResp with
  | Except.ok _ =>
      let r := fetchPackages env st
      ⟨r.state, req :: r.reqs, Except.ok ()⟩
  | Except.error _ =>
      ⟨st, [req], Except.error "Failed to update package"⟩

/-- `deletePackage`: deletes the package, then awaits
`fetchPackages()`; on failure throws `Failed to delete package`. -/
def deletePackage (env : Env) (id : String) (st : AdminState) : OpResult Unit :=
  let req : Request := ⟨Method.delete, API_BASE_URL ++ "/packages/" ++ id,
    [bearerHeader st]⟩
  match env.deleteResp with
  | Except.ok _ =>
      let r := fetchPackages env st
      ⟨r.state, req :: r.reqs, Except.ok ()⟩
  | Except.error _ =>
      ⟨st, [req], Except.error "Failed to delete package"⟩

/-- The query string `fetchAllReviews` builds with `URLSearchParams`. -/
def reviewsQuery (page limit : Nat) (verified : Option Bool) : String :=
  "page=" ++ toString page ++ "&limit=" ++ toString limit ++
    (match verified with
     | some b => "&verified=" ++ (if b then "true" else "false")
     | none => "")

/-- `fetchAllReviews(page, limit, verified)`: mirrors the response's
`data` and `pagination` on success; on failure records the error
message (default `Failed to fetch reviews`); never throws. -/
def fetchAllReviews (env : Env) (page limit : Nat) (verified : Option Bool)
    (st : AdminState) : OpResult Unit :=
  let st1 := { st with reviewsLoading := true, reviewsError := none }
  let req : Request := ⟨Method.get,
    API_BASE_URL ++ "/admin/reviews?" ++ reviewsQuery page limit verified,
    [bearerHeader st1]⟩
  match env.reviewsResp page limit verified with
  | Except.ok r =>
      ⟨{ st1 with
          reviews := r.data
          reviewsPagination := some r.pagination
          reviewsLoading := false }, [req], Except.ok ()⟩
  | Except.error f =>
      ⟨{ st1 with
          reviewsError := some (messageOr f "Failed to fetch reviews")
          reviewsLoading := false }, [req], Except.ok ()⟩

/-- `fetchAllReviews()` with its default arguments `page = 1`,
`limit = 10`, `verified = undefined`, as called by the mutation
wrappers. -/
def fetchAllReviewsDefault (env : Env) (st : AdminState) : OpResult Unit :=
  fetchAllReviews env 1 10 none st

/-- `fetchPackageReviews(packageId, page, limit)`: like
`fetchAllReviews` but against the per-package endpoint; default
failure message `Failed to fetch package reviews`; never throws. -/
def fetchPackageReviews (env : Env) (packageId : String) (page limit : Nat)
    (st : AdminState) : OpResult Unit :=
  let st1 := { st with reviewsLoading := true, reviewsError := none }
  let req : Request := ⟨Method.get,
    API_BASE_URL ++ "/packages/" ++ packageId ++ "/reviews?page=" ++
      toString page ++ "&limit=" ++ toString limit,
    [bearerHeader st1]⟩
  match env.packageReviewsResp packageId page limit with
  | Except.ok r =>
      ⟨{ st1 with
          reviews := r.data
          reviewsPagination := some r.pagination
          reviewsLoading := false }, [req], Except.ok ()⟩
  | Except.error f =>
      ⟨{ st1 with
          reviewsError := some (messageOr f "Failed to fetch package reviews")
          reviewsLoading := false }, [req], Except.ok ()⟩

/-- `approveReview`: patches the approval endpoint, then awaits
`fetchAllReviews()` with its defaults; on failure throws
`Failed to approve review`. -/
def approveReview (env : Env) (reviewId : String) (st : AdminState) :
    OpResult Unit :=
  let req : Request := ⟨Method.patch,
    API_BASE_URL ++ "/admin/reviews/" ++ reviewId ++ "/approve",
    [bearerHeader st]⟩
  match env.approveResp with
  | Except.ok _ =>
      let r := fetchAllReviewsDefault env st
      ⟨r.state, req :: r.reqs, Except.ok ()⟩
  | Except.error _ =>
      ⟨st, [req], Except.error "Failed to approve review"⟩

/-- `deleteReview`: deletes the review, then awaits
`fetchAllReviews()` with its defaults; on failure throws
`Failed to delete review`. -/
def deleteReview (env : Env) (reviewId : String) (st : AdminState) :
    OpResult Unit :=
  let req : Request := ⟨Method.delete,
    API_BASE_URL ++ "/admin/reviews/" ++ reviewId,
    [bearerHeader st]⟩
  match env.deleteReviewResp with
  | Except.ok _ =>
      let r := fetchAllReviewsDefault env st
      ⟨r.state, req :: r.reqs, Except.ok ()⟩
  | Except.error _ =>
      ⟨st, [req], Except.error "Failed to delete review"⟩

/-- The key the persist middleware stores under (`name` option). -/
def persistKey : String := "admin-auth-storage"

/-- The localStorage key the bookings page reads its token from. -/
def adminTokenKey : String := "adminToken"

/-- What the persist middleware writes: the `partialize` option keeps
only `user`, `accessToken` and `refreshToken`. -/
structure PersistedState where
  user : Option User
  accessToken : Option String
  refreshToken : Option String
deriving DecidableEq

/-- The store's `partialize` option. -/
def persistedOf (st : AdminState) : PersistedState :=
  ⟨st.user, st.accessToken, st.refreshToken⟩

/-- Rehydration at the start of a new session: zustand/persist merges
the persisted object over the freshly constructed initial state. -/
def rehydrate (p : PersistedState) : AdminState :=
  { initialState with
      user := p.user
      accessToken := p.accessToken
      refreshToken := p.refreshToken }

/-- The browser localStorage as the page components see it: the
store's persisted record under `admin-auth-storage`, and the value
under the key `adminToken` that the bookings page reads (no code in
the repository ever writes that key). -/
structure LocalStorage where
  adminAuthStorage : Option PersistedState
  adminToken : Option String
deriving DecidableEq

/-- Result of running a page-component operation: the page's local
state, the (possibly updated) shared store, the navigation target when
the handler assigned `window.location.href` or called `router.push`,
the `alert` messages shown, and the requests issued. -/
structure PageRun (σ : Type) where
  page : σ
  store : AdminState
  nav : Option String
  alerts : List String
  reqs : List Request

/-- Local state of the bookings page (`useState` hooks). -/
structure BookingsPageState where
  bookings : List Booking
  loading : Bool
  error : Option String
  selectedStatus : String
deriving DecidableEq

/-- The headers every bookings-page request sets: a bearer of
`localStorage.getItem('adminToken')` — not the store's token — plus a
JSON content type. -/
def bookingsHeaders (ls : LocalStorage) : List (String × String) :=
  [("Authorization", "Bearer " ++ jsTmpl ls.adminToken),
   ("Content-Type", "application/json")]

/-- `fetchBookings` of the bookings page: on a 401 response it calls
the store's `logout` and navigates to `/admin-login`; on any other
failure it only records an error message; `finally` always clears the
loading flag.  Neither the start of the call nor a success clears a
previously recorded `error`. -/
def fetchBookings (env : Env) (ls : LocalStorage) (store : AdminState)
    (pst : BookingsPageState) : PageRun BookingsPageState :=
  let pst1 := { pst with loading := true }
  let req : Request := ⟨Method.get, BOOKINGS_BASE_URL ++ "/bookings",
    bookingsHeaders ls⟩
  match env.bookingsResp with
  | FetchOutcome.ok bs =>
      ⟨{ pst1 with
          bookings := bs
          loading := false }, store, none, [], [req]⟩
  | FetchOutcome.httpError status =>
      if status == 401 then
        ⟨{ pst1 with loading := false }, logout store, some "/admin-login",
          [], [req]⟩
      else
        ⟨{ pst1 with
            error := some "Failed to fetch bookings"
            loading := false }, store, none, [], [req]⟩
  | FetchOutcome.reject f =>
      ⟨{ pst1 with
          error := some (messageOr f "An error occurred")
          loading := false }, store, none, [], [req]⟩

/-- The `switch (status)` of `updateBookingStatus`: the endpoint for
the three mutable statuses, `throw new Error('Invalid status')` for
everything else (including `PENDING`), before any request is made. -/
def statusEndpoint (baseUrl bookingId status : String) :
    Except String String :=
  if status = "CONFIRMED" then
    Except.ok (baseUrl ++ "/bookings/" ++ bookingId ++ "/confirm")
  else if status = "COMPLETED" then
    Except.ok (baseUrl ++ "/bookings/" ++ bookingId ++ "/complete")
  else if status = "CANCELLED" then
    Except.ok (baseUrl ++ "/bookings/" ++ bookingId ++ "/cancel")
  else
    Except.error "Invalid status"

/-- `updateBookingStatus` of the bookings page: maps the requested
status to its endpoint (throwing `Invalid status` otherwise — caught
by the surrounding try/catch, which alerts), issues the PATCH, and on
success runs `fetchBookings()` (not awaited in the source, but it
executes); every caught failure shows the fixed alert. -/
def updateBookingStatus (env : Env) (ls : LocalStorage) (store : AdminState)
    (pst : BookingsPageState) (bookingId status : String) :
    PageRun BookingsPageState :=
  match statusEndpoint BOOKINGS_BASE_URL bookingId status with
  | Except.error _ =>
      ⟨pst, store, none, ["Failed to update booking status"], []⟩
  | Except.ok endpoint =>
      let req : Request := ⟨Method.patch, endpoint, bookingsHeaders ls⟩
      match env.bookingPatchResp with
      | FetchOutcome.ok _ =>
          let r := fetchBookings env ls store pst
          ⟨r.page, r.store, r.nav, r.alerts, req :: r.reqs⟩
      | _ =>
          ⟨pst, store, none, ["Failed to update booking status"], [req]⟩

/-- `deleteBooking` of the bookings page: gated on `confirm(...)`;
on success runs `fetchBookings()`; every caught failure shows the
fixed alert. -/
def deleteBooking (env : Env) (ls : LocalStorage) (store : AdminState)
    (pst : BookingsPageState) (bookingId : String) (confirmed : Bool) :
    PageRun BookingsPageState :=
  if ¬ confirmed then ⟨pst, store, none, [], []⟩
  else
    let req : Request := ⟨Method.delete,
      BOOKINGS_BASE_URL ++ "/bookings/" ++ bookingId, bookingsHeaders ls⟩
    match env.bookingDeleteResp with
    | FetchOutcome.ok _ =>
        let r := fetchBookings env ls store pst
        ⟨r.page, r.store, r.nav, r.alerts, req :: r.reqs⟩
    | _ =>
        ⟨pst, store, none, ["Failed to delete booking"], [req]⟩

/-- Local state of the carousel list page. -/
structure CarouselPageState where
  carouselItems : List CarouselItem
  loading : Bool
  error : Option String
deriving DecidableEq

/-- `fetchCarouselItems` of the carousel page: reads
`data.data || []`, records a fixed error message on failure, never
navigates and never touches the store. -/
def fetchCarouselItems (env : Env) (store : AdminState)
    (pst : CarouselPageState) : PageRun CarouselPageState :=
  let pst1 := { pst with loading := true }
  let req : Request := ⟨Method.get, PAGES_BASE_URL ++ "/carousel/admin",
    [bearerHeader store]⟩
  match env.carouselListResp with
  | FetchOutcome.ok body =>
      ⟨{ pst1 with
          carouselItems := body.getD []
          loading := false }, store, none, [], [req]⟩
  | _ =>
      ⟨{ pst1 with
          error := some "Failed to fetch carousel items"
          loading := false }, store, none, [], [req]⟩

/-- `handleDelete` of the carousel page: gated on `confirm(...)`; on
success alerts and refetches the list; on failure only alerts. -/
def carouselDelete (env : Env) (store : AdminState) (pst : CarouselPageState)
    (id : String) (confirmed : Bool) : PageRun CarouselPageState :=
  if ¬ confirmed then ⟨pst, store, none, [], []⟩
  else
    let req : Request := ⟨Method.delete, PAGES_BASE_URL ++ "/carousel/" ++ id,
      [bearerHeader store]⟩
    match env.carouselDeleteResp with
    | FetchOutcome.ok _ =>
        let r := fetchCarouselItems env store pst
        ⟨r.page, r.store, r.nav,
          "Carousel item deleted successfully" :: r.alerts, req :: r.reqs⟩
    | _ =>
        ⟨pst, store, none, ["Failed to delete carousel item"], [req]⟩

/-- `handleToggleActive` of the carousel page: PATCHes the item; on
success alerts and refetches; on failure only alerts. -/
def carouselToggleActive (env : Env) (store : AdminState)
    (pst : CarouselPageState) (id : String) (currentStatus : Bool) :
    PageRun CarouselPageState :=
  let req : Request := ⟨Method.patch, PAGES_BASE_URL ++ "/carousel/" ++ id,
    [bearerHeader store, ("Content-Type", "application/json")]⟩
  match env.carouselPatchResp with
  | FetchOutcome.ok _ =>
      let r := fetchCarouselItems env store pst
      ⟨r.page, r.store, r.nav,
        ((if ¬ currentStatus then "Carousel item activated successfully"
          else "Carousel item deactivated successfully") :: r.alerts),
        req :: r.reqs⟩
  | _ =>
      ⟨pst, store, none, ["Failed to update carousel item"], [req]⟩

/-- The form of the carousel edit page. -/
structure CarouselForm where
  title : String
  description : String
  imageUrl : String
  actionType : String
  actionValue : String
  isActive : Bool
  sortOrder : Nat
deriving DecidableEq

/-- Local state of the carousel edit page (the `errors` record of
field-validation messages is elided: no request-issuing operation
reads or writes it). -/
structure CarouselEditState where
  form : CarouselForm
  loading : Bool
  uploadingImage : Bool
  fetchingItem : Bool
deriving DecidableEq

/-- `loadCarouselItem` of the carousel edit page: populates the form
from `data.data` on success; when the item is missing it alerts
`Carousel item not found` and navigates to `/carousel`; on any request
failure it alerts `Failed to load carousel item data` and also
navigates to `/carousel`; `finally` clears `fetchingItem`. -/
def loadCarouselItem (env : Env) (store : AdminState)
    (pst : CarouselEditState) (carouselId : String) :
    PageRun CarouselEditState :=
  let pst1 := { pst with fetchingItem := true }
  let req : Request := ⟨Method.get, PAGES_BASE_URL ++ "/carousel/" ++
    carouselId, [bearerHeader store]⟩
  match env.carouselItemResp with
  | FetchOutcome.ok (some item) =>
      ⟨{ pst1 with
          form :=
            { title := item.title
              description := item.description.getD ""
              imageUrl := item.imageUrl
              actionType := item.actionType
              actionValue := item.actionValue
              isActive := item.isActive
              sortOrder := item.sortOrder }
          fetchingItem := false }, store, none, [], [req]⟩
  | FetchOutcome.ok none =>
      ⟨{ pst1 with fetchingItem := false }, store, some "/carousel",
        ["Carousel item not found"], [req]⟩
  | _ =>
      ⟨{ pst1 with fetchingItem := false }, store, some "/carousel",
        ["Failed to load carousel item data"], [req]⟩

/-- The `uploadImage` helper (textually repeated in the carousel edit,
package create, create-enhanced and package edit pages, differing only
in the base-URL fallback): POSTs the form data with the store's bearer
token, returns the absolute URL on success, throws
`Upload failed` on a non-ok response, and rethrows the original
rejection otherwise. -/
def uploadImage (env : Env) (baseUrl : String) (store : AdminState) :
    List Request × Except Failure String :=
  let req : Request := ⟨Method.post, baseUrl ++ "/upload/image",
    [bearerHeader store]⟩
  match env.uploadResp with
  | FetchOutcome.ok url => ([req], Except.ok (baseUrl ++ url))
  | FetchOutcome.httpError _ => ([req], Except.error (some "Upload failed"))
  | FetchOutcome.reject f => ([req], Except.error f)

/-- `handleImageUpload` of the carousel edit page: no-op without a
selected file; otherwise uploads and writes the form's `imageUrl`; any
failure only alerts `Failed to upload image`; `finally` clears
`uploadingImage`. -/
def carouselEditUpload (env : Env) (store : AdminState)
    (pst : CarouselEditState) (hasFile : Bool) : PageRun CarouselEditState :=
  if ¬ hasFile then ⟨pst, store, none, [], []⟩
  else
    let pst1 := { pst with uploadingImage := true }
    let r := uploadImage env PAGES_BASE_URL store
    match r.2 with
    | Except.ok url =>
        ⟨{ pst1 with
            form := { pst1.form with imageUrl := url }
            uploadingImage := false }, store, none, [], r.1⟩
    | Except.error _ =>
        ⟨{ pst1 with uploadingImage := false }, store, none,
          ["Failed to upload image"], r.1⟩

/-- `handleSubmit` of the carousel edit page: returns without a
request when `validateForm()` fails (modelled by the `formValid`
argument; validation touches only the elided `errors` record); on
success alerts and navigates to `/carousel`; on failure only alerts;
`finally` clears `loading`. -/
def carouselEditSubmit (env : Env) (store : AdminState)
    (pst : CarouselEditState) (carouselId : String) (formValid : Bool) :
    PageRun CarouselEditState :=
  if ¬ formValid then ⟨pst, store, none, [], []⟩
  else
    let pst1 := { pst with loading := true }
    let req : Request := ⟨Method.patch, PAGES_BASE_URL ++ "/carousel/" ++
      carouselId, [bearerHeader store, ("Content-Type", "application/json")]⟩
    match env.carouselPatchResp with
    | FetchOutcome.ok _ =>
        ⟨{ pst1 with loading := false }, store, some "/carousel",
          ["Carousel item updated successfully!"], [req]⟩
    | _ =>
        ⟨{ pst1 with loading := false }, store, none,
          ["Failed to update carousel item. Please try again."], [req]⟩

/-- `handleDelete` of the packages list page: gated on `confirm(...)`;
runs the store's `deletePackage` and alerts the outcome. -/
def packagesPageDelete (env : Env) (store : AdminState)
    (packageId : String) (confirmed : Bool) : PageRun Unit :=
  if ¬ confirmed then ⟨(), store, none, [], []⟩
  else
    let r := deletePackage env packageId store
    match r.result with
    | Except.ok _ =>
        ⟨(), r.state, none, ["Package deleted successfully"], r.reqs⟩
    | Except.error _ =>
        ⟨(), r.state, none, ["Failed to delete package"], r.reqs⟩

/-- `handleApprove` of the reviews page: gated on `confirm(...)`; runs
the store's `approveReview` and alerts the outcome. -/
def reviewsPageApprove (env : Env) (store : AdminState)
    (reviewId : String) (confirmed : Bool) : PageRun Unit :=
  if ¬ confirmed then ⟨(), store, none, [], []⟩
  else
    let r := approveReview env reviewId store
    match r.result with
    | Except.ok _ =>
        ⟨(), r.state, none, ["Review approved successfully"], r.reqs⟩
    | Except.error _ =>
        ⟨(), r.state, none, ["Failed to approve review"], r.reqs⟩

/-- `handleDelete` of the reviews page: gated on `confirm(...)`; runs
the store's `deleteReview` and alerts the outcome. -/
def reviewsPageDelete (env : Env) (store : AdminState)
    (reviewId : String) (confirmed : Bool) : PageRun Unit :=
  if ¬ confirmed then ⟨(), store, none, [], []⟩
  else
    let r := deleteReview env reviewId store
    match r.result with
    | Except.ok _ =>
        ⟨(), r.state, none, ["Review deleted successfully"], r.reqs⟩
    | Except.error _ =>
        ⟨(), r.state, none, ["Failed to delete review"], r.reqs⟩

/-- Local state of the package create pages (the form is elided down
to the `coverImage` field the upload handler writes). -/
structure CreatePageState where
  loading : Bool
  uploadingImage : Bool
  coverImage : Option String
deriving DecidableEq

/-- `handleSubmit` of the package create page: returns without a
request when validation fails; runs the store's `createPackage`; on
success alerts and navigates to `/packages`; on failure only alerts;
`finally` clears `loading`. -/
def createPageSubmit (env : Env) (store : AdminState)
    (pst : CreatePageState) (formValid : Bool) : PageRun CreatePageState :=
  if ¬ formValid then ⟨pst, store, none, [], []⟩
  else
    let pst1 := { pst with loading := true }
    let r := createPackage env store
    match r.result with
    | Except.ok _ =>
        ⟨{ pst1 with loading := false }, r.state, some "/packages",
          ["Package created successfully!"], r.reqs⟩
    | Except.error _ =>
        ⟨{ pst1 with loading := false }, r.state, none,
          ["Failed to create package. Please try again."], r.reqs⟩

/-- `handleCoverImageUpload` of the package create / edit pages: no-op
without a file; otherwise uploads and writes the form's `coverImage`;
any failure only alerts `Failed to upload image`. -/
def createPageUpload (env : Env) (baseUrl : String) (store : AdminState)
    (pst : CreatePageState) (hasFile : Bool) : PageRun CreatePageState :=
  if ¬ hasFile then ⟨pst, store, none, [], []⟩
  else
    let pst1 := { pst with uploadingImage := true }
    let r := uploadImage env baseUrl store
    match r.2 with
    | Except.ok url =>
        ⟨{ pst1 with
            coverImage := some url
            uploadingImage := false }, store, none, [], r.1⟩
    | Except.error _ =>
        ⟨{ pst1 with uploadingImage := false }, store, none,
          ["Failed to upload image"], r.1⟩

/-- Local state of the package edit page (the form is elided to the
package data that populates it). -/
structure PkgEditState where
  loadedPackage : Option TourPackage
  fetchingPackage : Bool
  loading : Bool
  uploadingImage : Bool
deriving DecidableEq

/-- `loadPackageData` of the package edit page: looks the package up
in the store's cached list, else fetches it by id
(`fetchPackageById` swallows request failures and returns `null`, so
the catch branch of `loadPackageData` is unreachable); when no package
is obtained it alerts `Package not found` and navigates to
`/packages`; `finally` clears `fetchingPackage`. -/
def loadPackageData (env : Env) (store : AdminState) (pst : PkgEditState)
    (packageId : String) : PageRun PkgEditState :=
  let pst1 := { pst with fetchingPackage := true }
  match store.packages.find? (fun p => p.id == packageId) with
  | some pkg =>
      ⟨{ pst1 with
          loadedPackage := some pkg
          fetchingPackage := false }, store, none, [], []⟩
  | none =>
      let r := fetchPackageById env packageId store
      match r.result with
      | Except.ok (some pkg) =>
          ⟨{ pst1 with
              loadedPackage := some pkg
              fetchingPackage := false }, r.state, none, [], r.reqs⟩
      | _ =>
          ⟨{ pst1 with fetchingPackage := false }, r.state, some "/packages",
            ["Package not found"], r.reqs⟩

/-- `handleSubmit` of the package edit page: returns without a request
when validation fails; runs the store's `updatePackage`; on success
alerts and navigates to `/packages`; on failure only alerts; `finally`
clears `loading`. -/
def pkgEditSubmit (env : Env) (store : AdminState) (pst : PkgEditState)
    (packageId : String) (formValid : Bool) : PageRun PkgEditState :=
  if ¬ formValid then ⟨pst, store, none, [], []⟩
  else
    let pst1 := { pst with loading := true }
    let r := updatePackage env packageId store
    match r.result with
    | Except.ok _ =>
        ⟨{ pst1 with loading := false }, r.state, some "/packages",
          ["Package updated successfully!"], r.reqs⟩
    | Except.error _ =>
        ⟨{ pst1 with loading := false }, r.state, none,
          ["Failed to update package. Please try again."], r.reqs⟩

/-- `handleCoverImageUpload` of the package edit page: same shape as
the create page's handler. -/
def pkgEditUpload (env : Env) (store : AdminState) (pst : PkgEditState)
    (hasFile : Bool) : PageRun PkgEditState :=
  if ¬ hasFile then ⟨pst, store, none, [], []⟩
  else
    let pst1 := { pst with uploadingImage := true }
    let r := uploadImage env PAGES_BASE_URL store
    match r.2 with
    | Except.ok _ =>
        ⟨{ pst1 with uploadingImage := false }, store, none, [], r.1⟩
    | Except.error _ =>
        ⟨{ pst1 with uploadingImage := false }, store, none,
          ["Failed to upload image"], r.1⟩

/-- JavaScript `String.prototype.repeat` applied to an `Int` count:
throws a `RangeError` (modelled as `none`) for a negative count,
otherwise concatenates `n` copies. -/
def jsRepeatAux : Nat → String → String
  | 0, _ => ""
  | n + 1, s => s ++ jsRepeatAux n s

/-- `s.repeat(n)` for an integer count `n`. -/
def jsRepeat (s : String) (n : Int) : Option String :=
  if n < 0 then none else some (jsRepeatAux n.toNat s)

/-- The filled star the reviews page repeats (U+2B50). -/
def fullStar : String := "⭐"

/-- The empty star the reviews page repeats (U+2606). -/
def emptyStar : String := "☆"

/-- `renderStars` of the reviews page:
`'⭐'.repeat(rating) + '☆'.repeat(5 - rating)` for an integer rating
`r ≥ 0`; the second repeat count `5 - r` is negative for `r > 5`, and
the call then throws. -/
def renderStars (rating : Nat) : Option String :=
  match jsRepeat fullStar (rating : Int) with
  | none => none
  | some filled =>
      match jsRepeat emptyStar (5 - (rating : Int)) with
      | none => none
      | some empty => some (filled ++ empty)

/-- The store states reachable from the initial state through the
store's own operations (rehydration is the persist middleware's doing,
not an operation of the store). -/
inductive Reach : AdminState → Prop where
  | init : Reach initialState
  | health (env : Env) (st : AdminState) :
      Reach st → Reach (fetchHealthStatus env st).state
  | doLogin (env : Env) (e p : String) (st : AdminState) :
      Reach st → Reach (login env e p st).state
  | doLogout (st : AdminState) : Reach st → Reach (logout st)
  | refresh (env : Env) (st : AdminState) :
      Reach st → Reach (refreshAccessToken env st).state
  | pkgs (env : Env) (st : AdminState) :
      Reach st → Reach (fetchPackages env st).state
  | pkgById (env : Env) (id : String) (st : AdminState) :
      Reach st → Reach (fetchPackageById env id st).state
  | createP (env : Env) (st : AdminState) :
      Reach st → Reach (createPackage env st).state
  | updateP (env : Env) (id : String) (st : AdminState) :
      Reach st → Reach (updatePackage env id st).state
  | deleteP (env : Env) (id : String) (st : AdminState) :
      Reach st → Reach (deletePackage env id st).state
  | allReviews (env : Env) (page limit : Nat) (verified : Option Bool)
      (st : AdminState) :
      Reach st → Reach (fetchAllReviews env page limit verified st).state
  | pkgReviews (env : Env) (pid : String) (page limit : Nat)
      (st : AdminState) :
      Reach st → Reach (fetchPackageReviews env pid page limit st).state
  | approveR (env : Env) (rid : String) (st : AdminState) :
      Reach st → Reach (approveReview env rid st).state
  | deleteR (env : Env) (rid : String) (st : AdminState) :
      Reach st → Reach (deleteReview env rid st).state

/-- Sample admin user for concrete evaluations. -/
def adminUser : User :=
  ⟨"u1", "admin@example.com", some "Ada", some "Admin", "ADMIN"⟩

/-- Sample tour package. -/
def samplePkg : TourPackage :=
  ⟨"p1", "City walk", "A walk", "Cairo", 25, 2, "CITY", "EASY", none, none,
    "2024-01-01", "2024-01-02"⟩

/-- Sample review. -/
def sampleReview : Review :=
  ⟨"r1", 4, some "Nice", none, false, "2024-01-03", "2024-01-03",
    ⟨"u2", "Bob", "Guest", "bob@example.com"⟩, ⟨"p1", "City walk"⟩⟩

/-- Sample reviews response. -/
def sampleReviews : ReviewsResponse := ⟨[sampleReview], ⟨1, 10, 1, 1⟩⟩

/-- Sample carousel item. -/
def sampleItem : CarouselItem :=
  ⟨"c1", "Hero", none, "/img/hero.png", "PACKAGE", "p1", true, 0⟩

/-- An environment in which every request succeeds. -/
def envAllOk : Env where
  health := Except.ok ⟨"ok", "1.0.0", "2024-01-01T00:00:00Z"⟩
  loginResp := Except.ok ⟨"tok-access", "tok-refresh", adminUser⟩
  refreshResp := Except.ok "tok-access-2"
  packagesResp := Except.ok ⟨none, [samplePkg]⟩
  packageByIdResp := fun _ => Except.ok ⟨none, samplePkg⟩
  createResp := Except.ok ()
  updateResp := Except.ok ()
  deleteResp := Except.ok ()
  reviewsResp := fun _ _ _ => Except.ok sampleReviews
  packageReviewsResp := fun _ _ _ => Except.ok sampleReviews
  approveResp := Except.ok ()
  deleteReviewResp := Except.ok ()
  bookingsResp := FetchOutcome.ok []
  bookingPatchResp := FetchOutcome.ok ()
  bookingDeleteResp := FetchOutcome.ok ()
  carouselListResp := FetchOutcome.ok (some [sampleItem])
  carouselItemResp := FetchOutcome.ok (some sampleItem)
  carouselDeleteResp := FetchOutcome.ok ()
  carouselPatchResp := FetchOutcome.ok ()
  uploadResp := FetchOutcome.ok "/uploads/x.png"

/-- An environment in which every request fails (axios rejections with
message `boom`, fetch responses with status 500). -/
def envAllFail : Env where
  health := Except.error (some "boom")
  loginResp := Except.error (some "boom")
  refreshResp := Except.error (some "boom")
  packagesResp := Except.error (some "boom")
  packageByIdResp := fun _ => Except.error (some "boom")
  createResp := Except.error (some "boom")
  updateResp := Except.error (some "boom")
  deleteResp := Except.error (some "boom")
  reviewsResp := fun _ _ _ => Except.error (some "boom")
  packageReviewsResp := fun _ _ _ => Except.error (some "boom")
  approveResp := Except.error (some "boom")
  deleteReviewResp := Except.error (some "boom")
  bookingsResp := FetchOutcome.httpError 500
  bookingPatchResp := FetchOutcome.httpError 500
  bookingDeleteResp := FetchOutcome.httpError 500
  carouselListResp := FetchOutcome.httpError 500
  carouselItemResp := FetchOutcome.httpError 500
  carouselDeleteResp := FetchOutcome.httpError 500
  carouselPatchResp := FetchOutcome.httpError 500
  uploadResp := FetchOutcome.httpError 500

/-- Like `envAllFail`, but the bookings endpoint answers 401. -/
def envFail401 : Env := { envAllFail with bookingsResp := FetchOutcome.httpError 401 }

/-- A successful login response whose access token is the empty
string (a backend is free to return one; the store commits it). -/
def envEmptyToken : Env :=
  { envAllOk with loginResp := Except.ok ⟨"", "tok-refresh", adminUser⟩ }

/-- A logged-in store state. -/
def stLoggedIn : AdminState :=
  { initialState with
      user := some adminUser
      accessToken := some "tok-access"
      refreshToken := some "tok-refresh" }

/-- Empty bookings-page state. -/
def pst0 : BookingsPageState := ⟨[], true, none, "all"⟩

/-- A localStorage in which the store has persisted its record but
nothing ever wrote `adminToken`. -/
def ls0 : LocalStorage := ⟨some (persistedOf stLoggedIn), none⟩

theorem fetchHealthStatus_user (env : Env) (st : AdminState) :
    (fetchHealthStatus env st).state.user = st.user := by
  cases h : env.health <;> simp [fetchHealthStatus, h]

theorem fetchPackages_user (env : Env) (st : AdminState) :
    (fetchPackages env st).state.user = st.user := by
  cases h : env.packagesResp <;> simp [fetchPackages, h]

theorem fetchPackageById_user (env : Env) (id : String) (st : AdminState) :
    (fetchPackageById env id st).state.user = st.user := by
  cases h : env.packageByIdResp id <;> simp [fetchPackageById, h]

theorem createPackage_user (env : Env) (st : AdminState) :
    (createPackage env st).state.user = st.user := by
  cases h : env.createResp <;> simp [createPackage, h, fetchPackages_user]

theorem updatePackage_user (env : Env) (id : String) (st : AdminState) :
    (updatePackage env id st).state.user = st.user := by
  cases h : env.updateResp <;> simp [updatePackage, h, fetchPackages_user]

theorem deletePackage_user (env : Env) (id : String) (st : AdminState) :
    (deletePackage env id st).state.user = st.user := by
  cases h : env.deleteResp <;> simp [deletePackage, h, fetchPackages_user]

theorem fetchAllReviews_user (env : Env) (page limit : Nat)
    (verified : Option Bool) (st : AdminState) :
    (fetchAllReviews env page limit verified st).state.user = st.user := by
  cases h : env.reviewsResp page limit verified <;>
    simp [fetchAllReviews, h]

theorem fetchPackageReviews_user (env : Env) (pid : String) (page limit : Nat)
    (st : AdminState) :
    (fetchPackageReviews env pid page limit st).state.user = st.user := by
  cases h : env.packageReviewsResp pid page limit <;>
    simp [fetchPackageReviews, h]

theorem approveReview_user (env : Env) (rid : String) (st : AdminState) :
    (approveReview env rid st).state.user = st.user := by
  cases h : env.approveResp <;>
    simp [approveReview, h, fetchAllReviewsDefault, fetchAllReviews_user]

theorem deleteReview_user (env : Env) (rid : String) (st : AdminState) :
    (deleteReview env rid st).state.user = st.user := by
  cases h : env.deleteReviewResp <;>
    simp [deleteReview, h, fetchAllReviewsDefault, fetchAllReviews_user]

theorem login_user_cases (env : Env) (e p : String) (st : AdminState)
    (u : User) (h : (login env e p st).state.user = some u) :
    u.role = "ADMIN" ∨ st.user = some u := by
  cases henv : env.loginResp with
  | ok r =>
      by_cases hrole : r.user.role = "ADMIN"
      · left
        simp [login, henv, hrole] at h
        subst h
        exact hrole
      · right
        simp [login, henv, hrole] at h
        exact h
  | error f =>
      right
      simp [login, henv] at h
      exact h

theorem refreshAccessToken_user_cases (env : Env) (st : AdminState)
    (u : User) (h : (refreshAccessToken env st).state.user = some u) :
    st.user = some u := by
  by_cases ht : truthy st.refreshToken
  · cases henv : env.refreshResp with
    | ok tok =>
        simp only [refreshAccessToken, ht, not_true_eq_false, if_false,
          henv] at h
        simpa using h
    | error f =>
        simp only [refreshAccessToken, ht, not_true_eq_false, if_false,
          henv, logout] at h
        simp at h
  · simp only [refreshAccessToken, ht, not_false_eq_true, if_true] at h
    exact h

/-- C1: every mutation wrapper of the shared store refetches the
corresponding mirrored list before returning when its request
succeeds: `createPackage`, `updatePackage` and `deletePackage` each
await `fetchPackages()` (the resulting state is exactly the state
`fetchPackages` produces, and the refetch request follows the mutation
request), and `approveReview` and `deleteReview` each await
`fetchAllReviews()` with its default first page and limit. -/
theorem C1_mutations_refetch :
    (∀ env st, env.createResp = Except.ok () →
      (createPackage env st).state = (fetchPackages env st).state ∧
      (createPackage env st).reqs =
        ⟨Method.post, API_BASE_URL ++ "/packages",
          [bearerHeader st, ("Content-Type", "application/json")]⟩ ::
          (fetchPackages env st).reqs ∧
      (createPackage env st).result = Except.ok ()) ∧
    (∀ env id st, env.updateResp = Except.ok () →
      (updatePackage env id st).state = (fetchPackages env st).state ∧
      (updatePackage env id st).reqs =
        ⟨Method.patch, API_BASE_URL ++ "/packages/" ++ id,
          [bearerHeader st, ("Content-Type", "application/json")]⟩ ::
          (fetchPackages env st).reqs ∧
      (updatePackage env id st).result = Except.ok ()) ∧
    (∀ env id st, env.deleteResp = Except.ok () →
      (deletePackage env id st).state = (fetchPackages env st).state ∧
      (deletePackage env id st).reqs =
        ⟨Method.delete, API_BASE_URL ++ "/packages/" ++ id,
          [bearerHeader st]⟩ :: (fetchPackages env st).reqs ∧
      (deletePackage env id st).result = Except.ok ()) ∧
    (∀ env rid st, env.approveResp = Except.ok () →
      (approveReview env rid st).state =
        (fetchAllReviews env 1 10 none st).state ∧
      (approveReview env rid st).reqs =
        ⟨Method.patch, API_BASE_URL ++ "/admin/reviews/" ++ rid ++ "/approve",
          [bearerHeader st]⟩ :: (fetchAllReviews env 1 10 none st).reqs ∧
      (approveReview env rid st).result = Except.ok ()) ∧
    (∀ env rid st, env.deleteReviewResp = Except.ok () →
      (deleteReview env rid st).state =
        (fetchAllReviews env 1 10 none st).state ∧
      (deleteReview env rid st).reqs =
        ⟨Method.delete, API_BASE_URL ++ "/admin/reviews/" ++ rid,
          [bearerHeader st]⟩ :: (fetchAllReviews env 1 10 none st).reqs ∧
      (deleteReview env rid st).result = Except.ok ()) := by
  refine ⟨?_, ?_, ?_, ?_, ?_⟩
  · intro env st h
    simp [createPackage, h]
  · intro env id st h
    simp [updatePackage, h]
  · intro env id st h
    simp [deletePackage, h]
  · intro env rid st h
    simp [approveReview, h, fetchAllReviewsDefault]
  · intro env rid st h
    simp [deleteReview, h, fetchAllReviewsDefault]

/-- Witness for C1 at a concrete environment and state. -/
theorem C1_mutations_refetch_witness :
    envAllOk.createResp = Except.ok () ∧
    (createPackage envAllOk stLoggedIn).state =
      (fetchPackages envAllOk stLoggedIn).state :=
  ⟨rfl, (C1_mutations_refetch.1 envAllOk stLoggedIn rfl).1⟩

/-- C4 amended: in every state reachable from the initial state via
the store's operations a non-null `user` has role `ADMIN`; `login`
commits the user and tokens only for role `ADMIN` and otherwise throws
`Access denied. Admin privileges required.` leaving the auth fields
unchanged; and `checkAuthStatus` returns `true` iff `user` is non-null
with role `ADMIN` and `accessToken` is non-null and non-empty (JS
truthiness, not mere non-nullness). -/
theorem C4_admin_invariant :
    (∀ st, Reach st → ∀ u, st.user = some u → u.role = "ADMIN") ∧
    (∀ env e p st r, env.loginResp = Except.ok r → r.user.role ≠ "ADMIN" →
      (login env e p st).result =
        Except.error "Access denied. Admin privileges required." ∧
      (login env e p st).state.user = st.user ∧
      (login env e p st).state.accessToken = st.accessToken ∧
      (login env e p st).state.refreshToken = st.refreshToken) ∧
    (∀ env e p st r, env.loginResp = Except.ok r → r.user.role = "ADMIN" →
      (login env e p st).state.user = some r.user ∧
      (login env e p st).state.accessToken = some r.access_token ∧
      (login env e p st).state.refreshToken = some r.refresh_token) ∧
    (∀ st, checkAuthStatus st = true ↔
      (∃ u, st.user = some u ∧ u.role = "ADMIN") ∧
        truthy st.accessToken = true) := by
  refine ⟨?_, ?_, ?_, ?_⟩
  · intro st h
    induction h with
    | init => intro u hu; simp [initialState] at hu
    | health env st hst ih =>
        intro u hu; rw [fetchHealthStatus_user] at hu; exact ih u hu
    | doLogin env e p st hst ih =>
        intro u hu
        rcases login_user_cases env e p st u hu with h1 | h2
        · exact h1
        · exact ih u h2
    | doLogout st hst ih => intro u hu; simp [logout] at hu
    | refresh env st hst ih =>
        intro u hu; exact ih u (refreshAccessToken_user_cases env st u hu)
    | pkgs env st hst ih =>
        intro u hu; rw [fetchPackages_user] at hu; exact ih u hu
    | pkgById env id st hst ih =>
        intro u hu; rw [fetchPackageById_user] at hu; exact ih u hu
    | createP env st hst ih =>
        intro u hu; rw [createPackage_user] at hu; exact ih u hu
    | updateP env id st hst ih =>
        intro u hu; rw [updatePackage_user] at hu; exact ih u hu
    | deleteP env id st hst ih =>
        intro u hu; rw [deletePackage_user] at hu; exact ih u hu
    | allReviews env page limit verified st hst ih =>
        intro u hu; rw [fetchAllReviews_user] at hu; exact ih u hu
    | pkgReviews env pid page limit st hst ih =>
        intro u hu; rw [fetchPackageReviews_user] at hu; exact ih u hu
    | approveR env rid st hst ih =>
        intro u hu; rw [approveReview_user] at hu; exact ih u hu
    | deleteR env rid st hst ih =>
        intro u hu; rw [deleteReview_user] at hu; exact ih u hu
  · intro env e p st r h hrole
    simp [login, h, hrole]
  · intro env e p st r h hrole
    simp [login, h, hrole]
  · intro st
    cases hu : st.user <;> simp [checkAuthStatus, hu]
    tauto

/-- Witness for C4 at a concrete reachable state. -/
theorem C4_admin_invariant_witness :
    stLoggedIn.user = some adminUser ∧ adminUser.role = "ADMIN" ∧
    checkAuthStatus stLoggedIn = true := by
  have h : Reach stLoggedIn := by
    have hr := Reach.doLogin envAllOk "admin@example.com" "pw" initialState
      Reach.init
    have he : (login envAllOk "admin@example.com" "pw" initialState).state =
        stLoggedIn := by decide
    rw [he] at hr
    exact hr
  refine ⟨rfl, C4_admin_invariant.1 stLoggedIn h adminUser rfl, ?_⟩
  exact (C4_admin_invariant.2.2.2 stLoggedIn).mpr
    ⟨⟨adminUser, rfl, rfl⟩, by decide⟩

/-- C4 counterexample: the state reached by a successful admin login
whose response carries the empty string as access token has a non-null
user with role `ADMIN` and a non-null `accessToken`, yet
`checkAuthStatus` returns `false` — refuting the claim that
`checkAuthStatus` returns `true` iff `user` and `accessToken` are both
non-null and the role is `ADMIN`. -/
theorem C4_checkAuthStatus_counterexample :
    Reach (login envEmptyToken "admin@example.com" "pw" initialState).state ∧
    (login envEmptyToken "admin@example.com" "pw" initialState).state.user =
      some adminUser ∧
    adminUser.role = "ADMIN" ∧
    (login envEmptyToken "admin@example.com" "pw"
      initialState).state.accessToken = some "" ∧
    checkAuthStatus
      (login envEmptyToken "admin@example.com" "pw" initialState).state =
      false :=
  ⟨Reach.doLogin envEmptyToken "admin@example.com" "pw" initialState
      Reach.init, by decide, by decide, by decide, by decide⟩

/-- C5: the persist middleware writes exactly the three auth fields,
and a rehydrated session keeps those three fields while every mirrored
collection, pagination, health, loading and error field starts at its
initial value — the collections are ephemeral. -/
theorem C5_persist_partial :
    (∀ st, persistedOf st = ⟨st.user, st.accessToken, st.refreshToken⟩) ∧
    (∀ st,
      (rehydrate (persistedOf st)).user = st.user ∧
      (rehydrate (persistedOf st)).accessToken = st.accessToken ∧
      (rehydrate (persistedOf st)).refreshToken = st.refreshToken) ∧
    (∀ p,
      (rehydrate p).packages = [] ∧
      (rehydrate p).reviews = [] ∧
      (rehydrate p).reviewsPagination = none ∧
      (rehydrate p).healthData = none ∧
      (rehydrate p).loading = false ∧
      (rehydrate p).error = none ∧
      (rehydrate p).isLoading = false ∧
      (rehydrate p).authError = none ∧
      (rehydrate p).packagesLoading = false ∧
      (rehydrate p).packagesError = none ∧
      (rehydrate p).reviewsLoading = false ∧
      (rehydrate p).reviewsError = none) := by
  refine ⟨fun st => rfl, fun st => ⟨rfl, rfl, rfl⟩, fun p => ?_⟩
  simp [rehydrate, initialState]

/-- C6: the store's error taxonomy splits in two — each list-fetch
operation (`fetchHealthStatus`, `fetchPackages`, `fetchAllReviews`,
`fetchPackageReviews`) never propagates an exception (its result is
always `ok`) and on a failed request records a message in its error
field and clears its loading flag, while each mutation wrapper
(`createPackage`, `updatePackage`, `deletePackage`, `approveReview`,
`deleteReview`) propagates a failed request by throwing its fixed
`Failed to …` message. -/
theorem C6_error_taxonomy :
    (∀ env st, (fetchHealthStatus env st).result = Except.ok ()) ∧
    (∀ env st f, env.health = Except.error f →
      (fetchHealthStatus env st).state.error =
        some (messageOr f "Failed to fetch health status") ∧
      (fetchHealthStatus env st).state.loading = false) ∧
    (∀ env st, (fetchPackages env st).result = Except.ok ()) ∧
    (∀ env st f, env.packagesResp = Except.error f →
      (fetchPackages env st).state.packagesError =
        some "Failed to fetch packages" ∧
      (fetchPackages env st).state.packagesLoading = false) ∧
    (∀ env page limit verified st,
      (fetchAllReviews env page limit verified st).result = Except.ok ()) ∧
    (∀ env page limit verified st f,
      env.reviewsResp page limit verified = Except.error f →
      (fetchAllReviews env page limit verified st).state.reviewsError =
        some (messageOr f "Failed to fetch reviews") ∧
      (fetchAllReviews env page limit verified st).state.reviewsLoading =
        false) ∧
    (∀ env pid page limit st,
      (fetchPackageReviews env pid page limit st).result = Except.ok ()) ∧
    (∀ env pid page limit st f,
      env.packageReviewsResp pid page limit = Except.error f →
      (fetchPackageReviews env pid page limit st).state.reviewsError =
        some (messageOr f "Failed to fetch package reviews") ∧
      (fetchPackageReviews env pid page limit st).state.reviewsLoading =
        false) ∧
    (∀ env st f, env.createResp = Except.error f →
      (createPackage env st).result =
        Except.error "Failed to create package" ∧
      (createPackage env st).state = st) ∧
    (∀ env id st f, env.updateResp = Except.error f →
      (updatePackage env id st).result =
        Except.error "Failed to update package" ∧
      (updatePackage env id st).state = st) ∧
    (∀ env id st f, env.deleteResp = Except.error f →
      (deletePackage env id st).result =
        Except.error "Failed to delete package" ∧
      (deletePackage env id st).state = st) ∧
    (∀ env rid st f, env.approveResp = Except.error f →
      (approveReview env rid st).result =
        Except.error "Failed to approve review" ∧
      (approveReview env rid st).state = st) ∧
    (∀ env rid st f, env.deleteReviewResp = Except.error f →
      (deleteReview env rid st).result =
        Except.error "Failed to delete review" ∧
      (deleteReview env rid st).state = st) := by
  refine ⟨?_, ?_, ?_, ?_, ?_, ?_, ?_, ?_, ?_, ?_, ?_, ?_, ?_⟩
  · intro env st
    cases h : env.health <;> simp [fetchHealthStatus, h]
  · intro env st f h
    simp [fetchHealthStatus, h]
  · intro env st
    cases h : env.packagesResp <;> simp [fetchPackages, h]
  · intro env st f h
    simp [fetchPackages, h]
  · intro env page limit verified st
    cases h : env.reviewsResp page limit verified <;>
      simp [fetchAllReviews, h]
  · intro env page limit verified st f h
    simp [fetchAllReviews, h]
  · intro env pid page limit st
    cases h : env.packageReviewsResp pid page limit <;>
      simp [fetchPackageReviews, h]
  · intro env pid page limit st f h
    simp [fetchPackageReviews, h]
  · intro env st f h
    simp [createPackage, h]
  · intro env id st f h
    simp [updatePackage, h]
  · intro env id st f h
    simp [deletePackage, h]
  · intro env rid st f h
    simp [approveReview, h]
  · intro env rid st f h
    simp [deleteReview, h]

/-- Witness for C6 at a concrete environment and state. -/
theorem C6_error_taxonomy_witness :
    envAllFail.createResp = Except.error (some "boom") ∧
    (createPackage envAllFail stLoggedIn).result =
      Except.error "Failed to create package" :=
  ⟨rfl, (C6_error_taxonomy.2.2.2.2.2.2.2.2.1 envAllFail stLoggedIn
    (some "boom") rfl).1⟩

/-- C7: after a successful `fetchPackages` the mirrored `packages`
equals the backend's list — the wrapped `data` field when present,
otherwise the body itself — with `packagesLoading = false` and
`packagesError = null`; after a successful `fetchAllReviews` the
mirrored `reviews` and `reviewsPagination` are exactly the `data` and
`pagination` fields of the response. -/
theorem C7_mirrors_response :
    (∀ env st body, env.packagesResp = Except.ok body →
      (fetchPackages env st).state.packages = pickPackages body ∧
      (∀ l, body.dataField = some l →
        (fetchPackages env st).state.packages = l) ∧
      (body.dataField = none →
        (fetchPackages env st).state.packages = body.raw) ∧
      (fetchPackages env st).state.packagesLoading = false ∧
      (fetchPackages env st).state.packagesError = none) ∧
    (∀ env page limit verified st r,
      env.reviewsResp page limit verified = Except.ok r →
      (fetchAllReviews env page limit verified st).state.reviews = r.data ∧
      (fetchAllReviews env page limit verified st).state.reviewsPagination =
        some r.pagination ∧
      (fetchAllReviews env page limit verified st).state.reviewsLoading =
        false ∧
      (fetchAllReviews env page limit verified st).state.reviewsError =
        none) := by
  refine ⟨?_, ?_⟩
  · intro env st body h
    refine ⟨by simp [fetchPackages, h], ?_, ?_, by simp [fetchPackages, h],
      by simp [fetchPackages, h]⟩
    · intro l hl
      simp [fetchPackages, h, pickPackages, hl]
    · intro hl
      simp [fetchPackages, h, pickPackages, hl]
  · intro env page limit verified st r h
    simp [fetchAllReviews, h]

/-- Witness for C7 at a concrete environment and state. -/
theorem C7_mirrors_response_witness :
    envAllOk.packagesResp = Except.ok ⟨none, [samplePkg]⟩ ∧
    (fetchPackages envAllOk initialState).state.packages = [samplePkg] :=
  ⟨rfl, (C7_mirrors_response.1 envAllOk initialState ⟨none, [samplePkg]⟩
    rfl).1⟩

/-- C9: `refreshAccessToken` throws `No refresh token available` with
the whole state unchanged and no request when the stored refresh token
is absent; when the refresh request fails it clears `user`,
`accessToken`, `refreshToken` and `authError` (exactly `logout`) and
throws `Session expired. Please login again.`; when it succeeds it
changes only `accessToken`, to the response's `access_token`. -/
theorem C9_refreshAccessToken_spec :
    (∀ env st, st.refreshToken = none →
      (refreshAccessToken env st).state = st ∧
      (refreshAccessToken env st).reqs = [] ∧
      (refreshAccessToken env st).result =
        Except.error "No refresh token available") ∧
    (∀ env st f, truthy st.refreshToken = true →
      env.refreshResp = Except.error f →
      (refreshAccessToken env st).state = logout st ∧
      (refreshAccessToken env st).state.user = none ∧
      (refreshAccessToken env st).state.accessToken = none ∧
      (refreshAccessToken env st).state.refreshToken = none ∧
      (refreshAccessToken env st).state.authError = none ∧
      (refreshAccessToken env st).result =
        Except.error "Session expired. Please login again.") ∧
    (∀ env st tok, truthy st.refreshToken = true →
      env.refreshResp = Except.ok tok →
      (refreshAccessToken env st).state =
        { st with accessToken := some tok } ∧
      (refreshAccessToken env st).result = Except.ok tok) := by
  refine ⟨?_, ?_, ?_⟩
  · intro env st h
    simp [refreshAccessToken, truthy, h]
  · intro env st f ht h
    simp [refreshAccessToken, ht, h, logout]
  · intro env st tok ht h
    simp [refreshAccessToken, ht, h]

/-- Witness for C9 at a concrete environment and state. -/
theorem C9_refreshAccessToken_spec_witness :
    truthy stLoggedIn.refreshToken = true ∧
    envAllFail.refreshResp = Except.error (some "boom") ∧
    (refreshAccessToken envAllFail stLoggedIn).state.accessToken = none :=
  ⟨by decide, rfl, (C9_refreshAccessToken_spec.2.1 envAllFail stLoggedIn
    (some "boom") (by decide) rfl).2.2.1⟩

/-- C8: a booking's status is one of the four enum values, and
`updateBookingStatus` PATCHes `/bookings/:id/confirm`, `…/complete` or
`…/cancel` exactly when the requested status is `CONFIRMED`,
`COMPLETED` or `CANCELLED`, and for any other requested status
(including `PENDING`) throws `Invalid status` from the endpoint switch
and issues no request (the throw is caught by the handler's try/catch,
which alerts). -/
theorem C8_updateBookingStatus_endpoints :
    (∀ b : Booking, b.status = BookingStatus.PENDING ∨
      b.status = BookingStatus.CONFIRMED ∨
      b.status = BookingStatus.COMPLETED ∨
      b.status = BookingStatus.CANCELLED) ∧
    (∀ base id, statusEndpoint base id "CONFIRMED" =
      Except.ok (base ++ "/bookings/" ++ id ++ "/confirm")) ∧
    (∀ base id, statusEndpoint base id "COMPLETED" =
      Except.ok (base ++ "/bookings/" ++ id ++ "/complete")) ∧
    (∀ base id, statusEndpoint base id "CANCELLED" =
      Except.ok (base ++ "/bookings/" ++ id ++ "/cancel")) ∧
    (∀ base id s, s ≠ "CONFIRMED" → s ≠ "COMPLETED" → s ≠ "CANCELLED" →
      statusEndpoint base id s = Except.error "Invalid status") ∧
    (∀ env ls store pst id s, s ≠ "CONFIRMED" → s ≠ "COMPLETED" →
      s ≠ "CANCELLED" →
      (updateBookingStatus env ls store pst id s).reqs = [] ∧
      (updateBookingStatus env ls store pst id s).page = pst ∧
      (updateBookingStatus env ls store pst id s).store = store ∧
      (updateBookingStatus env ls store pst id s).alerts =
        ["Failed to update booking status"]) ∧
    (∀ env ls store pst id,
      (updateBookingStatus env ls store pst id "CONFIRMED").reqs.head? =
        some ⟨Method.patch,
          BOOKINGS_BASE_URL ++ "/bookings/" ++ id ++ "/confirm",
          bookingsHeaders ls⟩ ∧
      (updateBookingStatus env ls store pst id "COMPLETED").reqs.head? =
        some ⟨Method.patch,
          BOOKINGS_BASE_URL ++ "/bookings/" ++ id ++ "/complete",
          bookingsHeaders ls⟩ ∧
      (updateBookingStatus env ls store pst id "CANCELLED").reqs.head? =
        some ⟨Method.patch,
          BOOKINGS_BASE_URL ++ "/bookings/" ++ id ++ "/cancel",
          bookingsHeaders ls⟩) := by
  refine ⟨?_, ?_, ?_, ?_, ?_, ?_, ?_⟩
  · intro b
    cases h : b.status
    · exact Or.inl rfl
    · exact Or.inr (Or.inl rfl)
    · exact Or.inr (Or.inr (Or.inl rfl))
    · exact Or.inr (Or.inr (Or.inr rfl))
  · intro base id
    simp [statusEndpoint]
  · intro base id
    simp [statusEndpoint]
  · intro base id
    simp [statusEndpoint]
  · intro base id s h1 h2 h3
    simp [statusEndpoint, h1, h2, h3]
  · intro env ls store pst id s h1 h2 h3
    simp [updateBookingStatus, statusEndpoint, h1, h2, h3]
  · intro env ls store pst id
    refine ⟨?_, ?_, ?_⟩ <;>
      cases h : env.bookingPatchResp <;>
        simp [updateBookingStatus, statusEndpoint, h]

/-- Witness for C8 at the concrete status `PENDING`. -/
theorem C8_updateBookingStatus_endpoints_witness :
    statusEndpoint BOOKINGS_BASE_URL "b1" "PENDING" =
      Except.error "Invalid status" ∧
    (updateBookingStatus envAllOk ls0 stLoggedIn pst0 "b1" "PENDING").reqs =
      [] :=
  ⟨C8_updateBookingStatus_endpoints.2.2.2.2.1 BOOKINGS_BASE_URL "b1"
      "PENDING" (by decide) (by decide) (by decide),
    (C8_updateBookingStatus_endpoints.2.2.2.2.2.1 envAllOk ls0 stLoggedIn
      pst0 "b1" "PENDING" (by decide) (by decide) (by decide)).1⟩

theorem jsRepeatAux_data (s : String) :
    ∀ n, (jsRepeatAux n s).data = (List.replicate n s.data).flatten := by
  intro n
  induction n with
  | zero => rfl
  | succ m ih =>
      simp [jsRepeatAux, String.data_append, List.replicate_succ, ih]

/-- C10: for an integer rating `0 ≤ r ≤ 5`, `renderStars` returns a
string of exactly five star characters — `r` filled stars followed by
`5 − r` empty ones; for `r > 5` the repeat count `5 − r` is negative,
`String.repeat` throws, and the call fails. -/
theorem C10_renderStars_total_iff :
    (∀ r : Nat, r ≤ 5 →
      ∃ s, renderStars r = some s ∧
        s.data = List.replicate r '⭐' ++ List.replicate (5 - r) '☆' ∧
        s.data.length = 5) ∧
    (∀ r : Nat, 5 < r → renderStars r = none) := by
  constructor
  · intro r hr
    have h1 : ¬ ((r : Int) < 0) := by omega
    have h2 : ¬ ((5 : Int) - (r : Int) < 0) := by omega
    have h3 : ((r : Int)).toNat = r := by omega
    have h4 : ((5 : Int) - (r : Int)).toNat = 5 - r := by omega
    refine ⟨jsRepeatAux r fullStar ++ jsRepeatAux (5 - r) emptyStar, ?_, ?_, ?_⟩
    · simp [renderStars, jsRepeat, h1, h2, h3, h4]
    · have hfull : fullStar.data = ['⭐'] := rfl
      have hempty : emptyStar.data = ['☆'] := rfl
      simp [String.data_append, jsRepeatAux_data, hfull, hempty,
        List.flatten_replicate_singleton]
    · have hfull : fullStar.data = ['⭐'] := rfl
      have hempty : emptyStar.data = ['☆'] := rfl
      simp [String.data_append, jsRepeatAux_data, hfull, hempty,
        List.flatten_replicate_singleton]
      omega
  · intro r hr
    have h1 : ¬ ((r : Int) < 0) := by omega
    have h2 : (5 : Int) - (r : Int) < 0 := by omega
    simp [renderStars, jsRepeat, h1, h2]

/-- Witness for C10 at the concrete ratings 3 and 6. -/
theorem C10_renderStars_total_iff_witness :
    renderStars 6 = none ∧ renderStars 3 ≠ none :=
  ⟨C10_renderStars_total_iff.2 6 (by decide), by
    obtain ⟨s, hs, -, -⟩ := C10_renderStars_total_iff.1 3 (by decide)
    simp [hs]⟩

theorem bearerHeader_eq (st : AdminState) (t : String)
    (h : st.accessToken = some t) :
    bearerHeader st = ("Authorization", "Bearer " ++ t) := by
  simp [bearerHeader, h, jsTmpl]

/-- C3 counterexample: with the store logged in (access token
`tok-access`, persisted under `admin-auth-storage`) and nothing having
written the `adminToken` localStorage key, the bookings page's request
carries `Authorization: Bearer null` — not the store-held token —
refuting the claim that the bookings page's requests are authorized
with the same store-held token as every other screen. -/
theorem C3_bookings_token_counterexample :
    stLoggedIn.accessToken = some "tok-access" ∧
    ls0.adminAuthStorage = some (persistedOf stLoggedIn) ∧
    ls0.adminToken = none ∧
    (fetchBookings envAllOk ls0 stLoggedIn pst0).reqs =
      [⟨Method.get, BOOKINGS_BASE_URL ++ "/bookings",
        [("Authorization", "Bearer null"),
         ("Content-Type", "application/json")]⟩] ∧
    ("Bearer null" : String) ≠ "Bearer " ++ "tok-access" :=
  ⟨rfl, rfl, rfl, by decide, by decide⟩

/-- C3 amended: every authenticated request issued by a store wrapper
or a non-bookings page carries `Authorization: Bearer t` with `t` the
store's `accessToken` (login sends none; the health check attaches it
only when the token is truthy; `refreshAccessToken` instead carries
the store's `refreshToken`), while every request of the bookings page
carries a bearer of the localStorage value under `adminToken` — a key
distinct from the store's persistence key `admin-auth-storage` and
never written by this repository — so the bookings page is *not*
authorized with the store-held token. -/
theorem C3_bearer_token_sources :
    (∀ env st t, st.accessToken = some t →
      (∀ r ∈ (fetchPackages env st).reqs,
        ("Authorization", "Bearer " ++ t) ∈ r.headers) ∧
      (∀ id, ∀ r ∈ (fetchPackageById env id st).reqs,
        ("Authorization", "Bearer " ++ t) ∈ r.headers) ∧
      (∀ r ∈ (createPackage env st).reqs,
        ("Authorization", "Bearer " ++ t) ∈ r.headers) ∧
      (∀ id, ∀ r ∈ (updatePackage env id st).reqs,
        ("Authorization", "Bearer " ++ t) ∈ r.headers) ∧
      (∀ id, ∀ r ∈ (deletePackage env id st).reqs,
        ("Authorization", "Bearer " ++ t) ∈ r.headers) ∧
      (∀ page limit verified,
        ∀ r ∈ (fetchAllReviews env page limit verified st).reqs,
        ("Authorization", "Bearer " ++ t) ∈ r.headers) ∧
      (∀ pid page limit,
        ∀ r ∈ (fetchPackageReviews env pid page limit st).reqs,
        ("Authorization", "Bearer " ++ t) ∈ r.headers) ∧
      (∀ rid, ∀ r ∈ (approveReview env rid st).reqs,
        ("Authorization", "Bearer " ++ t) ∈ r.headers) ∧
      (∀ rid, ∀ r ∈ (deleteReview env rid st).reqs,
        ("Authorization", "Bearer " ++ t) ∈ r.headers)) ∧
    (∀ env st, truthy st.accessToken = false →
      (fetchHealthStatus env st).reqs =
        [⟨Method.get, API_BASE_URL ++ "/health", []⟩]) ∧
    (∀ env st t, st.accessToken = some t → truthy st.accessToken = true →
      (fetchHealthStatus env st).reqs =
        [⟨Method.get, API_BASE_URL ++ "/health",
          [("Authorization", "Bearer " ++ t)]⟩]) ∧
    (∀ env st, (login env "e" "p" st).reqs =
      [⟨Method.post, API_BASE_URL ++ "/auth/login", []⟩]) ∧
    (∀ env st, truthy st.refreshToken = true →
      (refreshAccessToken env st).reqs =
        [⟨Method.post, API_BASE_URL ++ "/auth/refresh",
          [("Authorization", "Bearer " ++ jsTmpl st.refreshToken)]⟩]) ∧
    (∀ env store pst t, store.accessToken = some t →
      (∀ r ∈ (fetchCarouselItems env store pst).reqs,
        ("Authorization", "Bearer " ++ t) ∈ r.headers) ∧
      (∀ id c, ∀ r ∈ (carouselDelete env store pst id c).reqs,
        ("Authorization", "Bearer " ++ t) ∈ r.headers) ∧
      (∀ id b, ∀ r ∈ (carouselToggleActive env store pst id b).reqs,
        ("Authorization", "Bearer " ++ t) ∈ r.headers)) ∧
    (∀ env store pst id t, store.accessToken = some t →
      ∀ r ∈ (loadCarouselItem env store pst id).reqs,
        ("Authorization", "Bearer " ++ t) ∈ r.headers) ∧
    (∀ env baseUrl store t, store.accessToken = some t →
      ∀ r ∈ (uploadImage env baseUrl store).1,
        ("Authorization", "Bearer " ++ t) ∈ r.headers) ∧
    (∀ env ls store pst,
      (∀ r ∈ (fetchBookings env ls store pst).reqs,
        r.headers = bookingsHeaders ls) ∧
      (∀ id s, ∀ r ∈ (updateBookingStatus env ls store pst id s).reqs,
        r.headers = bookingsHeaders ls) ∧
      (∀ id c, ∀ r ∈ (deleteBooking env ls store pst id c).reqs,
        r.headers = bookingsHeaders ls)) ∧
    (∀ ls, bookingsHeaders ls =
      [("Authorization", "Bearer " ++ jsTmpl ls.adminToken),
       ("Content-Type", "application/json")]) ∧
    persistKey ≠ adminTokenKey := by
  refine ⟨?_, ?_, ?_, ?_, ?_, ?_, ?_, ?_, ?_, fun ls => rfl, by decide⟩
  · intro env st t ht
    have hb := bearerHeader_eq st t ht
    have hb1 : bearerHeader
        { st with packagesLoading := true, packagesError := none } =
        ("Authorization", "Bearer " ++ t) := by
      simp [bearerHeader, ht, jsTmpl]
    have hb2 : bearerHeader
        { st with reviewsLoading := true, reviewsError := none } =
        ("Authorization", "Bearer " ++ t) := by
      simp [bearerHeader, ht, jsTmpl]
    refine ⟨?_, ?_, ?_, ?_, ?_, ?_, ?_, ?_, ?_⟩
    · cases h : env.packagesResp <;> simp [fetchPackages, h, hb1]
    · intro id
      cases h : env.packageByIdResp id <;> simp [fetchPackageById, h, hb]
    · cases h : env.createResp <;>
        cases h2 : env.packagesResp <;>
          simp [createPackage, fetchPackages, h, h2, hb, hb1]
    · intro id
      cases h : env.updateResp <;>
        cases h2 : env.packagesResp <;>
          simp [updatePackage, fetchPackages, h, h2, hb, hb1]
    · intro id
      cases h : env.deleteResp <;>
        cases h2 : env.packagesResp <;>
          simp [deletePackage, fetchPackages, h, h2, hb, hb1]
    · intro page limit verified
      cases h : env.reviewsResp page limit verified <;>
        simp [fetchAllReviews, h, hb2]
    · intro pid page limit
      cases h : env.packageReviewsResp pid page limit <;>
        simp [fetchPackageReviews, h, hb2]
    · intro rid
      cases h : env.approveResp <;>
        cases h2 : env.reviewsResp 1 10 none <;>
          simp [approveReview, fetchAllReviewsDefault, fetchAllReviews,
            h, h2, hb, hb2]
    · intro rid
      cases h : env.deleteReviewResp <;>
        cases h2 : env.reviewsResp 1 10 none <;>
          simp [deleteReview, fetchAllReviewsDefault, fetchAllReviews,
            h, h2, hb, hb2]
  · intro env st ht
    cases h : env.health <;> simp [fetchHealthStatus, ht, h]
  · intro env st t ht htr
    rw [ht] at htr
    cases h : env.health <;>
      simp [fetchHealthStatus, ht, htr, h, jsTmpl]
  · intro env st
    cases h : env.loginResp with
    | ok r =>
        by_cases hrole : r.user.role = "ADMIN" <;> simp [login, h, hrole]
    | error f => simp [login, h]
  · intro env st ht
    cases h : env.refreshResp <;> simp [refreshAccessToken, ht, h]
  · intro env store pst t ht
    have hb := bearerHeader_eq store t ht
    refine ⟨?_, ?_, ?_⟩
    · cases h : env.carouselListResp <;> simp [fetchCarouselItems, h, hb]
    · intro id c
      cases c
      · simp [carouselDelete]
      · cases h : env.carouselDeleteResp <;>
          cases h2 : env.carouselListResp <;>
            simp [carouselDelete, fetchCarouselItems, h, h2, hb]
    · intro id b
      cases h : env.carouselPatchResp <;>
        cases h2 : env.carouselListResp <;>
          simp [carouselToggleActive, fetchCarouselItems, h, h2, hb]
  · intro env store pst id t ht
    have hb := bearerHeader_eq store t ht
    cases h : env.carouselItemResp with
    | ok b => cases b <;> simp [loadCarouselItem, h, hb]
    | httpError s => simp [loadCarouselItem, h, hb]
    | reject f => simp [loadCarouselItem, h, hb]
  · intro env baseUrl store t ht
    have hb := bearerHeader_eq store t ht
    cases h : env.uploadResp <;> simp [uploadImage, h, hb]
  · intro env ls store pst
    refine ⟨?_, ?_, ?_⟩
    · cases h : env.bookingsResp <;> simp [fetchBookings, h]
      split <;> simp
    · intro id s
      rcases hok : statusEndpoint BOOKINGS_BASE_URL id s with msg | endpoint
      · simp [updateBookingStatus, hok]
      · cases h : env.bookingPatchResp with
        | ok b =>
            cases h2 : env.bookingsResp <;>
              simp [updateBookingStatus, fetchBookings, hok, h, h2]
            split <;> simp
        | httpError s2 => simp [updateBookingStatus, hok, h]
        | reject f => simp [updateBookingStatus, hok, h]
    · intro id c
      cases c
      · simp [deleteBooking]
      · cases h : env.bookingDeleteResp with
        | ok b =>
            cases h2 : env.bookingsResp <;>
              simp [deleteBooking, fetchBookings, h, h2]
            split <;> simp
        | httpError s2 => simp [deleteBooking, h]
        | reject f => simp [deleteBooking, h]

/-- Witness for C3 at a concrete environment, state and request. -/
theorem C3_bearer_token_sources_witness :
    stLoggedIn.accessToken = some "tok-access" ∧
    ("Authorization", "Bearer " ++ "tok-access") ∈
      (Request.mk Method.get (API_BASE_URL ++ "/packages")
        [("Authorization", "Bearer " ++ "tok-access")]).headers :=
  ⟨rfl, (C3_bearer_token_sources.1 envAllOk stLoggedIn "tok-access" rfl).1
    ⟨Method.get, API_BASE_URL ++ "/packages",
      [("Authorization", "Bearer " ++ "tok-access")]⟩ (by decide)⟩

/-- C2 counterexample: two operations do clear the stored auth state
or navigate away on a failed request — `refreshAccessToken` on a
failed refresh clears `user`, `accessToken` and `refreshToken`, and
the bookings page's `fetchBookings` on a 401 response logs the store
out and navigates to `/admin-login` — refuting the claim that no
operation does either. -/
theorem C2_failure_recovery_counterexample :
    stLoggedIn.user = some adminUser ∧
    stLoggedIn.accessToken = some "tok-access" ∧
    stLoggedIn.refreshToken = some "tok-refresh" ∧
    (refreshAccessToken envAllFail stLoggedIn).state.user = none ∧
    (refreshAccessToken envAllFail stLoggedIn).state.accessToken = none ∧
    (refreshAccessToken envAllFail stLoggedIn).state.refreshToken = none ∧
    (fetchBookings envFail401 ls0 stLoggedIn pst0).store.accessToken =
      none ∧
    (fetchBookings envFail401 ls0 stLoggedIn pst0).nav =
      some "/admin-login" :=
  ⟨rfl, rfl, rfl, by decide, by decide, by decide, by decide, by decide⟩

/-- C2 amended: on a failed backend request every operation of the
console changes nothing except recording or reporting an error
message (error field, alert, or rethrow) and clearing its loading
flag, with these exceptions: `refreshAccessToken` clears the stored
auth state (exactly `logout`) before throwing; the bookings page's
`fetchBookings` on a 401 logs out and navigates to `/admin-login`;
the carousel edit page's `loadCarouselItem` navigates to `/carousel`
after alerting; and the package edit page's `loadPackageData`
navigates to `/packages` after alerting `Package not found` when the
package cannot be loaded. -/
theorem C2_failure_effects :
    (∀ env st f, env.health = Except.error f →
      (fetchHealthStatus env st).state =
        { st with
            loading := false
            error := some (messageOr f "Failed to fetch health status") }) ∧
    (∀ env e p st f, env.loginResp = Except.error f →
      (login env e p st).state =
        { st with
            isLoading := false
            authError := some (messageOr f "Login failed") }) ∧
    (∀ env st f, env.packagesResp = Except.error f →
      (fetchPackages env st).state =
        { st with
            packagesLoading := false
            packagesError := some "Failed to fetch packages" }) ∧
    (∀ env id st f, env.packageByIdResp id = Except.error f →
      (fetchPackageById env id st).state = st ∧
      (fetchPackageById env id st).result = Except.ok none) ∧
    (∀ env st f, env.createResp = Except.error f →
      (createPackage env st).state = st) ∧
    (∀ env id st f, env.updateResp = Except.error f →
      (updatePackage env id st).state = st) ∧
    (∀ env id st f, env.deleteResp = Except.error f →
      (deletePackage env id st).state = st) ∧
    (∀ env page limit verified st f,
      env.reviewsResp page limit verified = Except.error f →
      (fetchAllReviews env page limit verified st).state =
        { st with
            reviewsLoading := false
            reviewsError := some (messageOr f "Failed to fetch reviews") }) ∧
    (∀ env pid page limit st f,
      env.packageReviewsResp pid page limit = Except.error f →
      (fetchPackageReviews env pid page limit st).state =
        { st with
            reviewsLoading := false
            reviewsError :=
              some (messageOr f "Failed to fetch package reviews") }) ∧
    (∀ env rid st f, env.approveResp = Except.error f →
      (approveReview env rid st).state = st) ∧
    (∀ env rid st f, env.deleteReviewResp = Except.error f →
      (deleteReview env rid st).state = st) ∧
    (∀ env st, truthy st.refreshToken = false →
      (refreshAccessToken env st).state = st) ∧
    (∀ env st f, truthy st.refreshToken = true →
      env.refreshResp = Except.error f →
      (refreshAccessToken env st).state = logout st) ∧
    (∀ env ls store pst f, env.bookingsResp = FetchOutcome.reject f →
      (fetchBookings env ls store pst).page =
        { pst with
            loading := false
            error := some (messageOr f "An error occurred") } ∧
      (fetchBookings env ls store pst).store = store ∧
      (fetchBookings env ls store pst).nav = none) ∧
    (∀ env ls store pst s, env.bookingsResp = FetchOutcome.httpError s →
      s ≠ 401 →
      (fetchBookings env ls store pst).page =
        { pst with
            loading := false
            error := some "Failed to fetch bookings" } ∧
      (fetchBookings env ls store pst).store = store ∧
      (fetchBookings env ls store pst).nav = none) ∧
    (∀ env ls store pst, env.bookingsResp = FetchOutcome.httpError 401 →
      (fetchBookings env ls store pst).page = { pst with loading := false } ∧
      (fetchBookings env ls store pst).store = logout store ∧
      (fetchBookings env ls store pst).nav = some "/admin-login") ∧
    (∀ env ls store pst id s,
      (∀ u, env.bookingPatchResp ≠ FetchOutcome.ok u) →
      (updateBookingStatus env ls store pst id s).page = pst ∧
      (updateBookingStatus env ls store pst id s).store = store ∧
      (updateBookingStatus env ls store pst id s).nav = none) ∧
    (∀ env ls store pst id c,
      (∀ u, env.bookingDeleteResp ≠ FetchOutcome.ok u) →
      (deleteBooking env ls store pst id c).page = pst ∧
      (deleteBooking env ls store pst id c).store = store ∧
      (deleteBooking env ls store pst id c).nav = none) ∧
    (∀ env store pst, (∀ b, env.carouselListResp ≠ FetchOutcome.ok b) →
      (fetchCarouselItems env store pst).page =
        { pst with
            loading := false
            error := some "Failed to fetch carousel items" } ∧
      (fetchCarouselItems env store pst).store = store ∧
      (fetchCarouselItems env store pst).nav = none) ∧
    (∀ env store pst id c,
      (∀ u, env.carouselDeleteResp ≠ FetchOutcome.ok u) →
      (carouselDelete env store pst id c).page = pst ∧
      (carouselDelete env store pst id c).store = store ∧
      (carouselDelete env store pst id c).nav = none) ∧
    (∀ env store pst id b,
      (∀ u, env.carouselPatchResp ≠ FetchOutcome.ok u) →
      (carouselToggleActive env store pst id b).page = pst ∧
      (carouselToggleActive env store pst id b).store = store ∧
      (carouselToggleActive env store pst id b).nav = none ∧
      (carouselToggleActive env store pst id b).alerts =
        ["Failed to update carousel item"]) ∧
    (∀ env store pst id,
      (∀ b, env.carouselItemResp ≠ FetchOutcome.ok b) →
      (loadCarouselItem env store pst id).page =
        { pst with fetchingItem := false } ∧
      (loadCarouselItem env store pst id).store = store ∧
      (loadCarouselItem env store pst id).nav = some "/carousel" ∧
      (loadCarouselItem env store pst id).alerts =
        ["Failed to load carousel item data"]) ∧
    (∀ env store pst, (∀ u, env.uploadResp ≠ FetchOutcome.ok u) →
      (carouselEditUpload env store pst true).page =
        { pst with uploadingImage := false } ∧
      (carouselEditUpload env store pst true).store = store ∧
      (carouselEditUpload env store pst true).nav = none ∧
      (carouselEditUpload env store pst true).alerts =
        ["Failed to upload image"]) ∧
    (∀ env store pst id,
      (∀ u, env.carouselPatchResp ≠ FetchOutcome.ok u) →
      (carouselEditSubmit env store pst id true).page =
        { pst with loading := false } ∧
      (carouselEditSubmit env store pst id true).store = store ∧
      (carouselEditSubmit env store pst id true).nav = none) ∧
    (∀ env store id f, env.deleteResp = Except.error f →
      (packagesPageDelete env store id true).store = store ∧
      (packagesPageDelete env store id true).nav = none ∧
      (packagesPageDelete env store id true).alerts =
        ["Failed to delete package"]) ∧
    (∀ env store rid f, env.approveResp = Except.error f →
      (reviewsPageApprove env store rid true).store = store ∧
      (reviewsPageApprove env store rid true).nav = none ∧
      (reviewsPageApprove env store rid true).alerts =
        ["Failed to approve review"]) ∧
    (∀ env store rid f, env.deleteReviewResp = Except.error f →
      (reviewsPageDelete env store rid true).store = store ∧
      (reviewsPageDelete env store rid true).nav = none ∧
      (reviewsPageDelete env store rid true).alerts =
        ["Failed to delete review"]) ∧
    (∀ env store pst f, env.createResp = Except.error f →
      (createPageSubmit env store pst true).page =
        { pst with loading := false } ∧
      (createPageSubmit env store pst true).store = store ∧
      (createPageSubmit env store pst true).nav = none) ∧
    (∀ env baseUrl store pst, (∀ u, env.uploadResp ≠ FetchOutcome.ok u) →
      (createPageUpload env baseUrl store pst true).page =
        { pst with uploadingImage := false } ∧
      (createPageUpload env baseUrl store pst true).store = store ∧
      (createPageUpload env baseUrl store pst true).nav = none) ∧
    (∀ env store pst pid f,
      store.packages.find? (fun p => p.id == pid) = none →
      env.packageByIdResp pid = Except.error f →
      (loadPackageData env store pst pid).page =
        { pst with fetchingPackage := false } ∧
      (loadPackageData env store pst pid).store = store ∧
      (loadPackageData env store pst pid).nav = some "/packages" ∧
      (loadPackageData env store pst pid).alerts = ["Package not found"]) ∧
    (∀ env store pst pid f, env.updateResp = Except.error f →
      (pkgEditSubmit env store pst pid true).page =
        { pst with loading := false } ∧
      (pkgEditSubmit env store pst pid true).store = store ∧
      (pkgEditSubmit env store pst pid true).nav = none) ∧
    (∀ env store pst, (∀ u, env.uploadResp ≠ FetchOutcome.ok u) →
      (pkgEditUpload env store pst true).page =
        { pst with uploadingImage := false } ∧
      (pkgEditUpload env store pst true).store = store ∧
      (pkgEditUpload env store pst true).nav = none) := by
  refine ⟨?_, ?_, ?_, ?_, ?_, ?_, ?_, ?_, ?_, ?_, ?_, ?_, ?_, ?_, ?_, ?_,
    ?_, ?_, ?_, ?_, ?_, ?_, ?_, ?_, ?_, ?_, ?_, ?_, ?_, ?_, ?_, ?_⟩
  · intro env st f h
    simp [fetchHealthStatus, h]
  · intro env e p st f h
    simp [login, h]
  · intro env st f h
    simp [fetchPackages, h]
  · intro env id st f h
    simp [fetchPackageById, h]
  · intro env st f h
    simp [createPackage, h]
  · intro env id st f h
    simp [updatePackage, h]
  · intro env id st f h
    simp [deletePackage, h]
  · intro env page limit verified st f h
    simp [fetchAllReviews, h]
  · intro env pid page limit st f h
    simp [fetchPackageReviews, h]
  · intro env rid st f h
    simp [approveReview, h]
  · intro env rid st f h
    simp [deleteReview, h]
  · intro env st h
    simp [refreshAccessToken, h]
  · intro env st f ht h
    simp [refreshAccessToken, ht, h]
  · intro env ls store pst f h
    simp [fetchBookings, h]
  · intro env ls store pst s h hne
    simp [fetchBookings, h, hne]
  · intro env ls store pst h
    simp [fetchBookings, h]
  · intro env ls store pst id s hne
    rcases hok : statusEndpoint BOOKINGS_BASE_URL id s with msg | ep
    · simp [updateBookingStatus, hok]
    · cases h : env.bookingPatchResp with
      | ok u => exact absurd h (hne u)
      | httpError s2 => simp [updateBookingStatus, hok, h]
      | reject f => simp [updateBookingStatus, hok, h]
  · intro env ls store pst id c hne
    cases c
    · simp [deleteBooking]
    · cases h : env.bookingDeleteResp with
      | ok u => exact absurd h (hne u)
      | httpError s2 => simp [deleteBooking, h]
      | reject f => simp [deleteBooking, h]
  · intro env store pst hne
    cases h : env.carouselListResp with
    | ok b => exact absurd h (hne b)
    | httpError s => simp [fetchCarouselItems, h]
    | reject f => simp [fetchCarouselItems, h]
  · intro env store pst id c hne
    cases c
    · simp [carouselDelete]
    · cases h : env.carouselDeleteResp with
      | ok u => exact absurd h (hne u)
      | httpError s => simp [carouselDelete, h]
      | reject f => simp [carouselDelete, h]
  · intro env store pst id b hne
    cases h : env.carouselPatchResp with
    | ok u => exact absurd h (hne u)
    | httpError s => simp [carouselToggleActive, h]
    | reject f => simp [carouselToggleActive, h]
  · intro env store pst id hne
    cases h : env.carouselItemResp with
    | ok b => exact absurd h (hne b)
    | httpError s => simp [loadCarouselItem, h]
    | reject f => simp [loadCarouselItem, h]
  · intro env store pst hne
    cases h : env.uploadResp with
    | ok u => exact absurd h (hne u)
    | httpError s => simp [carouselEditUpload, uploadImage, h]
    | reject f => simp [carouselEditUpload, uploadImage, h]
  · intro env store pst id hne
    cases h : env.carouselPatchResp with
    | ok u => exact absurd h (hne u)
    | httpError s => simp [carouselEditSubmit, h]
    | reject f => simp [carouselEditSubmit, h]
  · intro env store id f h
    simp [packagesPageDelete, deletePackage, h]
  · intro env store rid f h
    simp [reviewsPageApprove, approveReview, h]
  · intro env store rid f h
    simp [reviewsPageDelete, deleteReview, h]
  · intro env store pst f h
    simp [createPageSubmit, createPackage, h]
  · intro env baseUrl store pst hne
    cases h : env.uploadResp with
    | ok u => exact absurd h (hne u)
    | httpError s => simp [createPageUpload, uploadImage, h]
    | reject f => simp [createPageUpload, uploadImage, h]
  · intro env store pst pid f hfind h
    simp [loadPackageData, hfind, fetchPackageById, h]
  · intro env store pst pid f h
    simp [pkgEditSubmit, updatePackage, h]
  · intro env store pst hne
    cases h : env.uploadResp with
    | ok u => exact absurd h (hne u)
    | httpError s => simp [pkgEditUpload, uploadImage, h]
    | reject f => simp [pkgEditUpload, uploadImage, h]

/-- Witness for C2 at a concrete environment and state. -/
theorem C2_failure_effects_witness :
    envAllFail.health = Except.error (some "boom") ∧
    (fetchHealthStatus envAllFail initialState).state =
      { initialState with loading := false, error := some "boom" } :=
  ⟨rfl, C2_failure_effects.1 envAllFail initialState (some "boom") rfl⟩

end AdminDash
